import Mathlib

/-!
Verification of the hybrid retrieval pipeline in
`src/sub_agents/search_agent/tools.py` (the "londonagent" repository).

The Python functions are shallowly embedded as Lean functions.  External
effects (the database driver, the embedding service, the generative model,
the filesystem) are modelled as explicit oracle values ("worlds") supplied
as arguments; Python exceptions are modelled with `Except`; observable
interactions with the backend are recorded in explicit event traces.
Diagnostic writes (`write_to_tool_context`, logging) have no effect on any
property considered here and are modelled as no-ops.  The conditional
driver imports at the top of `tools.py` are modelled as having succeeded
(both drivers are listed in the project requirements).  String scanning
models the regex `(?i)\b(update|delete|drop|insert|create|alter|truncate|merge)\b`
with the ASCII reading of `\w` ([A-Za-z0-9_]) and ASCII lower-casing,
matching the SQL strings the program handles.
-/

set_option maxRecDepth 100000

/-- Backend kind: `configs.db_type` is compared against the string
"postgres", with every other value treated as SQLite
(`get_db_connection`, tools.py lines 185-190). -/
inductive DbType where
  | sqlite
  | postgres
deriving DecidableEq, Repr

/-- Rendering of the backend kind used inside error messages
(`configs.db_type` interpolated at tools.py line 412). -/
def DbType.pyName : DbType → String
  | .sqlite => "sqlite"
  | .postgres => "postgres"

/-- Word characters of the regex `\b` boundary, ASCII reading of `\w`. -/
def isWordChar (c : Char) : Bool :=
  c.isAlphanum || c = '_'

/-- The denylisted keywords of the safety gate (tools.py line 402). -/
def disallowedKeywords : List String :=
  ["update", "delete", "drop", "insert", "create", "alter", "truncate", "merge"]

/-- Whether the characters of `kw` occur in `cs` starting at index `i`. -/
def matchAt (cs kw : List Char) (i : Nat) : Bool :=
  decide ((cs.drop i).take kw.length = kw)

/-- Whether position `i` of `cs` exists and holds a word character. -/
def wordCharAt (cs : List Char) (i : Nat) : Bool :=
  match cs.get? i with
  | some c => isWordChar c
  | none => false

/-- Whole-word occurrence of `kw` in `cs` at index `i`: the characters
match and both neighbouring positions (when they exist) are non-word
characters, exactly the `\b...\b` condition for an all-word-character
keyword. -/
def wholeWordAt (cs kw : List Char) (i : Nat) : Bool :=
  matchAt cs kw i &&
  (decide (i = 0) || !wordCharAt cs (i - 1)) &&
  !wordCharAt cs (i + kw.length)

/-- Model of `re.search(r"(?i)\b(update|delete|drop|insert|create|alter|truncate|merge)\b", s)`
returning whether a match exists (tools.py lines 401-403): some denylisted
keyword occurs case-insensitively as a whole word. -/
def containsDisallowed (s : String) : Bool :=
  let cs := s.toList.map Char.toLower
  disallowedKeywords.any fun k =>
    (List.range (cs.length + 1)).any fun i => wholeWordAt cs k.toList i

/-- The pydantic model `activity` (tools.py lines 60-67).  Numeric fields
are modelled with `Int`; their numeric type plays no role in the
properties proved here. -/
structure activity where
  activity_id : String
  name : String
  description : String
  cost : Int
  duration_min : Int
  duration_max : Int
  kid_friendliness_score : Int
deriving DecidableEq, Repr

/-- The pydantic model `actvities_search_output` (tools.py lines 73-75):
an optional list of activities plus an error-message string. -/
structure actvities_search_output where
  activities_list : Option (List activity)
  error_message : String
deriving DecidableEq, Repr

/-- A row fetched from the backend, keyed by column name; `row.get(k)`
yields `None` for an absent column, modelled by `Option` fields.  Only
the seven columns read by the row-mapping loop are relevant. -/
structure Row where
  activity_id : Option String
  name : Option String
  description : Option String
  cost : Option Int
  duration_min : Option Int
  duration_max : Option Int
  kid_friendliness_score : Option Int
deriving DecidableEq, Repr

/-- Construction of one `activity` from one row (tools.py lines 441-449):
pydantic validation fails when any field is `None`. -/
def mapRow (r : Row) : Except String activity :=
  match r.activity_id, r.name, r.description, r.cost,
        r.duration_min, r.duration_max, r.kid_friendliness_score with
  | some a, some n, some d, some c, some dmin, some dmax, some k =>
      .ok { activity_id := a, name := n, description := d, cost := c,
            duration_min := dmin, duration_max := dmax,
            kid_friendliness_score := k }
  | _, _, _, _, _, _, _ =>
      .error "validation error for activity"

/-- The row-formatting loop (tools.py lines 437-450): rows are mapped in
order and the first failure aborts the whole loop. -/
def mapRows : List Row → Except String (List activity)
  | [] => .ok []
  | r :: rs =>
    match mapRow r with
    | .error e => .error e
    | .ok a =>
      match mapRows rs with
      | .error e => .error e
      | .ok rest => .ok (a :: rest)

/-- Python exceptions that can surface inside the executor try-block,
split by which `except` arm of tools.py lines 462-470 handles them. -/
inductive PyErr where
  | dbError (msg : String)
  | connectionError (msg : String)
  | otherError (msg : String)
deriving DecidableEq, Repr

/-- Equality is decidable on `Except` values with decidable components. -/
instance instDecEqExcept {ε α : Type} [DecidableEq ε] [DecidableEq α] :
    DecidableEq (Except ε α) := fun a b =>
  match a, b with
  | .ok x, .ok y =>
    if h : x = y then isTrue (by rw [h]) else isFalse (by intro hh; cases hh; exact h rfl)
  | .error x, .error y =>
    if h : x = y then isTrue (by rw [h]) else isFalse (by intro hh; cases hh; exact h rfl)
  | .ok _, .error _ => isFalse (by intro hh; cases hh)
  | .error _, .ok _ => isFalse (by intro hh; cases hh)

/-- Oracle for the backend as seen by one executor call: the result of
`get_db_connection()` (a handle or `None`) and the outcome of
`cur.execute(...)` followed by `fetchall()` (rows, or a raised
exception). -/
structure DbWorld where
  connection : Option Nat
  execOutcome : Except PyErr (List Row)
deriving DecidableEq, Repr

/-- Observable interactions with the backend layer. -/
inductive DbEvent where
  | acquireConn
  | execute (sql : String)
deriving DecidableEq, Repr

/-- Rejection message of the safety gate (tools.py line 404). -/
def disallowedMessage : String :=
  "Invalid SQL: Contains disallowed DML/DDL operations."

/-- Message of the `ConnectionError` raised at tools.py line 412. -/
def connFailureMessage (dbType : DbType) : String :=
  "Failed to establish " ++ dbType.pyName ++ " connection."

/-- The `except` arms of tools.py lines 462-470, mapping a caught
exception to the reported `error_message`. -/
def execErrorMessage : PyErr → String
  | .dbError m => "Invalid SQL: Database error - " ++ m
  | .connectionError m => "Database Connection Error: " ++ m
  | .otherError m => "Invalid SQL: An unexpected error occurred - " ++ m

/-- Model of `get_data_from_db_tool` (tools.py lines 388-478).  The result is
`Except PyErr ...`: a `.error` value would model an exception escaping
the function; the final match shows every raised exception is handled by
one of the `except` arms.  The event list records backend interactions
in order.  `params` is forwarded to `cur.execute` and plays no further
role. -/
def get_data_from_db_tool (dbType : DbType) (sql_string : String)
    (params : List String) (w : DbWorld) :
    Except PyErr (actvities_search_output × List DbEvent) :=
  let _ := params
  if containsDisallowed sql_string then
    .ok ({ activities_list := none, error_message := disallowedMessage }, [])
  else
    let attempt : Except PyErr actvities_search_output × List DbEvent :=
      match w.connection with
      | none =>
          (.error (.connectionError (connFailureMessage dbType)), [.acquireConn])
      | some _ =>
        match w.execOutcome with
        | .error e => (.error e, [.acquireConn, .execute sql_string])
        | .ok rows =>
          match mapRows rows with
          | .error m =>
              (.ok { activities_list := none,
                     error_message :=
                       "Error formatting row into activity object: " ++ m },
               [.acquireConn, .execute sql_string])
          | .ok acts =>
              (.ok { activities_list := some acts, error_message := "" },
               [.acquireConn, .execute sql_string])
    match attempt with
    | (.ok out, tr) => .ok (out, tr)
    | (.error e, tr) =>
        .ok ({ activities_list := none, error_message := execErrorMessage e }, tr)

/-- Oracle for one call to the embedding service (tools.py lines 240-247):
either it yields a vector, or it raises one of the two exception types the
`except` arms at lines 248-255 catch.  Vector components are modelled with
`Int`; their numeric type plays no role in the properties proved here. -/
inductive EmbedOutcome where
  | ok (values : List Int)
  | transportError (msg : String)
  | decodeError (msg : String)
deriving DecidableEq, Repr

/-- Model of `get_embedding_tool` (tools.py lines 233-255): returns the vector, or
`None` (modelled `none`) when the call fails with a transport error
(`requests.exceptions.RequestException`) or a decode error
(`json.JSONDecodeError`). -/
def get_embedding_tool (outcome : EmbedOutcome) : Option (List Int) :=
  match outcome with
  | .ok v => some v
  | .transportError _ => none
  | .decodeError _ => none

/-- Oracle for one call to the predicate-compiling model plus the JSON
handling of tools.py lines 366-377: the model call and `json.loads` are
external, so their combined outcome is supplied as a value.
`ok w` — call succeeded, fence-stripping and parsing succeeded, and the
JSON object maps the key "where" to `w`; `missingKey` — parsing succeeded
but the key is absent, so `.get("where", "")` yields the empty string;
`parseError` — `json.loads` (or the key lookup on a non-object) raised;
`callError` — `generate_content` raised. -/
inductive WhereOutcome where
  | ok (whereClause : String)
  | missingKey
  | parseError (msg : String)
  | callError (msg : String)
deriving DecidableEq, Repr

/-- Observable call to the generative model. -/
inductive LlmEvent where
  | modelCall
deriving DecidableEq, Repr

/-- Model of `get_sql_where_clause_tool` (tools.py lines 319-385): one model call,
no retry; the `except Exception` arm at line 382 turns every failure into
the sentinel `None` return. -/
def get_sql_where_clause_tool (outcome : WhereOutcome) :
    Option String × List LlmEvent :=
  match outcome with
  | .ok w => (some w, [.modelCall])
  | .missingKey => (some "", [.modelCall])
  | .parseError _ => (none, [.modelCall])
  | .callError _ => (none, [.modelCall])

/-- Python truthiness of the `embedding` variable at tools.py lines
276/297: `None` and the empty list are falsy, a non-empty list is truthy. -/
def pyTruthyList : Option (List Int) → Bool
  | some (_ :: _) => true
  | _ => false

/-- Python truthiness of the `where_clause` variable at tools.py lines
289/303: `None` and the empty string are falsy. -/
def pyTruthyStr : Option String → Bool
  | some s => decide (s ≠ "")
  | none => false

/-- Python `str` of a list of numbers, as interpolated into the f-strings
at tools.py lines 283 and 298. -/
def pyListRepr (v : List Int) : String :=
  "[" ++ String.intercalate ", " (v.map toString) ++ "]"

/-- The projection literal shared by both dialect branches (tools.py
lines 274 and 296). -/
def selectChunk : String :=
  "SELECT activity_id, name, description, cost, duration_min, duration_max, kid_friendliness_score, sight_id "

/-- The eight projected column names appearing in `selectChunk`. -/
def fixedColumns : List String :=
  ["activity_id", "name", "description", "cost", "duration_min",
   "duration_max", "kid_friendliness_score", "sight_id"]

/-- The SQL-statement construction of `get_activities_tool` (tools.py
lines 270-306), faithful to the sequential string concatenation and the
truthiness tests of the source. -/
def build_activities_query (dbType : DbType) (embedding : Option (List Int))
    (where_clause : Option String) (maxRows : Nat) : String :=
  match dbType with
  | .postgres =>
    let q := selectChunk
    let q := q ++
      (if pyTruthyList embedding then
        ", (embedding <=> \x27" ++ pyListRepr (embedding.getD []) ++ "\x27) AS score "
      else
        ", 0 AS score ")
    let q := q ++ "FROM activities "
    let q := q ++
      (if pyTruthyStr where_clause then
        "WHERE " ++ where_clause.getD "" ++ " "
      else "")
    q ++ "ORDER BY score ASC LIMIT " ++ toString maxRows ++ ";"
  | .sqlite =>
    let q := selectChunk
    let q := q ++
      (if pyTruthyList embedding then
        ", vec_distance_cosine(embedding, vec_f32(\x27" ++
          pyListRepr (embedding.getD []) ++ "\x27)) AS score "
      else
        ", 0 AS score ")
    let q := q ++ "FROM activities "
    let q := q ++
      (if pyTruthyStr where_clause then
        "WHERE " ++ where_clause.getD "" ++ " "
      else "")
    q ++ "ORDER BY score ASC LIMIT " ++ toString maxRows ++ ";"

/-- Oracle for one full `get_activities_tool` request: the outcomes of
the embedding call, the predicate-compilation call, and the database
backend. -/
structure PipelineWorld where
  embedOutcome : EmbedOutcome
  whereOutcome : WhereOutcome
  db : DbWorld
deriving DecidableEq, Repr

/-- The `embedding` variable of tools.py lines 264-266: `None` when the
semantic query is empty, otherwise the embedding-tool result. -/
def pipelineEmbedding (vector_query : String) (o : EmbedOutcome) :
    Option (List Int) :=
  if vector_query = "" then none else get_embedding_tool o

/-- The SQL statement a given request hands to the executor. -/
def pipelineSql (dbType : DbType) (maxRows : Nat) (vector_query : String)
    (w : PipelineWorld) : String :=
  build_activities_query dbType (pipelineEmbedding vector_query w.embedOutcome)
    (get_sql_where_clause_tool w.whereOutcome).1 maxRows

/-- Python `repr` of the short ASCII strings arising here. -/
def pyStrQuote (s : String) : String :=
  "\x27" ++ s ++ "\x27"

/-- Rendering of one `activity` inside the pydantic `str` output
(numeric rendering approximated by the integer model). -/
def strActivity (a : activity) : String :=
  "activity(activity_id=" ++ pyStrQuote a.activity_id ++
  ", name=" ++ pyStrQuote a.name ++
  ", description=" ++ pyStrQuote a.description ++
  ", cost=" ++ toString a.cost ++
  ", duration_min=" ++ toString a.duration_min ++
  ", duration_max=" ++ toString a.duration_max ++
  ", kid_friendliness_score=" ++ toString a.kid_friendliness_score ++ ")"

/-- Model of `str(...)` on an `actvities_search_output` instance
(pydantic `BaseModel.__str__`: space-separated field=value pairs). -/
def strOutput (o : actvities_search_output) : String :=
  "activities_list=" ++
  (match o.activities_list with
   | none => "None"
   | some l => "[" ++ String.intercalate ", " (l.map strActivity) ++ "]") ++
  " error_message=" ++ pyStrQuote o.error_message

/-- The fallback object built at tools.py line 314. -/
def fallbackOutput : actvities_search_output :=
  { activities_list := none, error_message := "Failed to get results." }

/-- Python truthiness of an `actvities_search_output` instance at the
`if not results:` test (tools.py line 313): pydantic `BaseModel` defines
neither `__bool__` nor `__len__`, so every instance is truthy. -/
def pyTruthyOutput (_ : actvities_search_output) : Bool :=
  true

/-- Model of `get_activities_tool` (tools.py lines 258-316).  Returns the
caller-visible result (`.error` would model an exception escaping the
function) together with the backend-event and model-call traces. -/
def get_activities_tool (dbType : DbType) (maxRows : Nat)
    (vector_query : String) (keyword_queries : String) (w : PipelineWorld) :
    Except PyErr String × List DbEvent × List LlmEvent :=
  let _ := keyword_queries
  let embedding := pipelineEmbedding vector_query w.embedOutcome
  let whereRes := get_sql_where_clause_tool w.whereOutcome
  let sql_query := build_activities_query dbType embedding whereRes.1 maxRows
  match get_data_from_db_tool dbType sql_query [] w.db with
  | .error e => (.error e, [], whereRes.2)
  | .ok (results, dbEvents) =>
    if pyTruthyOutput results = false then
      (.ok (strOutput fallbackOutput), dbEvents, whereRes.2)
    else
      (.ok (strOutput results), dbEvents, whereRes.2)

/-- Whether `pat` occurs in `s` as a plain substring. -/
def strContains (s pat : String) : Bool :=
  let cs := s.toList
  let ps := pat.toList
  (List.range (cs.length + 1)).any fun i =>
    decide ((cs.drop i).take ps.length = ps)

/-- Whether `pat` matches the front of `cs`. -/
def matchesFront (pat cs : List Char) : Bool :=
  decide (cs.take pat.length = pat)

/-- The characters of `cs` strictly before the first occurrence of `pat`
(all of `cs` when `pat` does not occur). -/
def beforeSub (pat : List Char) : List Char → List Char
  | [] => []
  | c :: cs =>
    if matchesFront pat (c :: cs) then []
    else c :: beforeSub pat cs

/-- Split a character list on a separator character. -/
def splitOnChar (sep : Char) : List Char → List (List Char)
  | [] => [[]]
  | c :: cs =>
    let r := splitOnChar sep cs
    if c = sep then [] :: r
    else
      match r with
      | [] => [[c]]
      | h :: t => (c :: h) :: t

/-- The text of the projection of a SELECT statement: everything after
"SELECT " and before the first " FROM ". -/
def projectionText (q : String) : String :=
  ((beforeSub " FROM ".toList q.toList).drop 7).asString

/-- The comma-separated items of the projection of a SELECT statement. -/
def projectionItems (q : String) : List String :=
  (splitOnChar ',' (projectionText q).toList).map List.asString

/-- Oracle for one call to `setup_sqlite_client` (tools.py lines 77-114):
the filesystem check, the script read, the `executescript` run and the
`sqlite_vec.load` attempt.  `sqlite3.connect(":memory:")` itself is
modelled as succeeding. -/
structure SqliteWorld where
  fileExists : Bool
  readScript : Except String String
  scriptOutcome : Except String Unit
  vecLoadOutcome : Except String Unit
deriving DecidableEq, Repr

/-- The module-level state behind `setup_sqlite_client`: the cached
`_sqlite_conn` handle plus a fresh-handle supply modelling object
identity of successive `sqlite3.connect` results. -/
structure SqliteState where
  conn : Option Nat
  nextConn : Nat
deriving DecidableEq, Repr

/-- The state at process start: `_sqlite_conn = None` (tools.py line 57). -/
def initialSqliteState : SqliteState :=
  { conn := none, nextConn := 0 }

/-- Observable actions of one `setup_sqlite_client` call. -/
inductive SqliteEvent where
  | connectMemory
  | runScript
  | loadVecExt
deriving DecidableEq, Repr

/-- Model of `setup_sqlite_client` (tools.py lines 77-114).  On a cached
connection the function returns it immediately; otherwise it reads the
bootstrap SQL script, creates an in-memory database, hydrates it with
`executescript`, and attempts to load the vector extension, tolerating
the absence of the extension.  Any other failure is caught at line 107: the
partially created connection is closed and `None` is returned. -/
def setup_sqlite_client (w : SqliteWorld) (s : SqliteState) :
    Option Nat × SqliteState × List SqliteEvent :=
  match s.conn with
  | some c => (some c, s, [])
  | none =>
    if w.fileExists = false then
      (none, s, [])
    else
      match w.readScript with
      | .error _ => (none, s, [])
      | .ok _ =>
        let c := s.nextConn
        match w.scriptOutcome with
        | .error _ =>
            (none, { conn := none, nextConn := c + 1 },
             [.connectMemory, .runScript])
        | .ok _ =>
            let _ := w.vecLoadOutcome
            (some c, { conn := some c, nextConn := c + 1 },
             [.connectMemory, .runScript, .loadVecExt])

/-- Oracle for one call to `setup_postgres_client` (tools.py lines
116-183): the liveness probe on a cached connection, the connection
attempt, the `CREATE EXTENSION` statement, the `to_regclass` table
check, and the bootstrap-script read and run.  The PRAGMA filtering of
the script content (lines 164-171) does not affect any property proved
here. -/
structure PgWorld where
  probeOutcome : Except String Unit
  connectOutcome : Except String Unit
  createExtOutcome : Except String Unit
  tableCheckOutcome : Except String Bool
  fileExists : Bool
  readScript : Except String String
  bootstrapOutcome : Except String Unit
deriving DecidableEq, Repr

/-- The module-level state behind `setup_postgres_client`: the cached
`_postgres_conn` handle plus a fresh-handle supply. -/
structure PgState where
  conn : Option Nat
  nextConn : Nat
deriving DecidableEq, Repr

/-- The state at process start: `_postgres_conn = None` (tools.py line 58). -/
def initialPgState : PgState :=
  { conn := none, nextConn := 0 }

/-- Observable actions of one `setup_postgres_client` call. -/
inductive PgEvent where
  | probe
  | connectAttempt
  | createExt
  | tableCheck
  | runBootstrap
deriving DecidableEq, Repr

/-- The fresh-connection path of `setup_postgres_client` (tools.py lines
138-183), entered with `_postgres_conn = None`; `tr` is the trace of
events already emitted by the caller.  An exception anywhere in the try
block reaches `except Exception` at line 181 and yields `None` without
touching `_postgres_conn`. -/
def pgConnect (w : PgWorld) (s : PgState) (tr : List PgEvent) :
    Option Nat × PgState × List PgEvent :=
  match w.connectOutcome with
  | .error _ => (none, s, tr ++ [.connectAttempt])
  | .ok _ =>
    let c := s.nextConn
    let s1 : PgState := { s with nextConn := c + 1 }
    match w.createExtOutcome with
    | .error _ => (none, s1, tr ++ [.connectAttempt, .createExt])
    | .ok _ =>
      match w.tableCheckOutcome with
      | .error _ => (none, s1, tr ++ [.connectAttempt, .createExt, .tableCheck])
      | .ok tableAlready =>
        if tableAlready then
          (some c, { s1 with conn := some c },
           tr ++ [.connectAttempt, .createExt, .tableCheck])
        else
          if w.fileExists then
            match w.readScript with
            | .error _ =>
                (none, s1, tr ++ [.connectAttempt, .createExt, .tableCheck])
            | .ok _ =>
              match w.bootstrapOutcome with
              | .error _ =>
                  (none, s1,
                   tr ++ [.connectAttempt, .createExt, .tableCheck, .runBootstrap])
              | .ok _ =>
                  (some c, { s1 with conn := some c },
                   tr ++ [.connectAttempt, .createExt, .tableCheck, .runBootstrap])
          else
            (some c, { s1 with conn := some c },
             tr ++ [.connectAttempt, .createExt, .tableCheck])

/-- Model of `setup_postgres_client` (tools.py lines 116-183).  A cached
connection is validated with a `SELECT 1` probe and returned on success;
on probe failure the cache is cleared and a reconnect is attempted.
With no cached connection the fresh-connection path runs. -/
def setup_postgres_client (w : PgWorld) (s : PgState) :
    Option Nat × PgState × List PgEvent :=
  match s.conn with
  | some c =>
    match w.probeOutcome with
    | .ok _ => (some c, s, [.probe])
    | .error _ => pgConnect w { s with conn := none } [.probe]
  | none => pgConnect w s []

/-- Statement-side abbreviation: the constant-score projection chunk the
spec prescribes when no embedding is present. -/
def specScoreZeroChunk : String :=
  ", 0 AS score "

/-- Statement-side abbreviation: the backend-specific cosine-distance
score chunk the spec prescribes when an embedding is present. -/
def specDistanceChunk (dbType : DbType) (v : List Int) : String :=
  match dbType with
  | .postgres => ", (embedding <=> \x27" ++ pyListRepr v ++ "\x27) AS score "
  | .sqlite =>
      ", vec_distance_cosine(embedding, vec_f32(\x27" ++ pyListRepr v ++
        "\x27)) AS score "

/-- Statement-side abbreviation: the WHERE chunk — the predicate injected
verbatim when truthy, nothing otherwise. -/
def specWhereChunk (wc : Option String) : String :=
  if pyTruthyStr wc then "WHERE " ++ wc.getD "" ++ " " else ""

/-- Statement-side abbreviation: the ascending-order-by-score and row
bound tail of the statement. -/
def specOrderChunk (maxRows : Nat) : String :=
  "ORDER BY score ASC LIMIT " ++ toString maxRows ++ ";"

/-- Statement-side abbreviation: the score chunk the builder is expected
to emit for a given backend and embedding value. -/
def scoreChunkOf (dbType : DbType) (emb : Option (List Int)) : String :=
  if pyTruthyList emb then specDistanceChunk dbType (emb.getD [])
  else specScoreZeroChunk

/-- A string with a non-empty left part is non-empty. -/
theorem prefixed_ne_empty (p m : String) (hp : 0 < p.length) : p ++ m ≠ "" := by
  intro hh
  have h2 := congrArg String.length hh
  rw [String.length_append] at h2
  have h3 : p.length + m.length = 0 := by simpa using h2
  omega

/-- Every error message produced by the `except` arms is non-empty. -/
theorem execErrorMessage_ne_empty (e : PyErr) : execErrorMessage e ≠ "" := by
  cases e <;> exact prefixed_ne_empty _ _ (by decide)

/-- The executor returns a structured value for every input: every raised
exception is handled by one of the `except` arms. -/
theorem executor_total (dbType : DbType) (sql : String) (params : List String)
    (w : DbWorld) :
    ∃ out tr, get_data_from_db_tool dbType sql params w = .ok (out, tr) := by
  cases hc : containsDisallowed sql with
  | true =>
    exact ⟨{ activities_list := none, error_message := disallowedMessage }, [],
      by unfold get_data_from_db_tool; simp [hc]⟩
  | false =>
    cases hw : w.connection with
    | none =>
      exact ⟨{ activities_list := none,
               error_message :=
                 execErrorMessage (.connectionError (connFailureMessage dbType)) },
             [.acquireConn],
        by unfold get_data_from_db_tool; simp [hc, hw]⟩
    | some c =>
      cases he : w.execOutcome with
      | error e =>
        exact ⟨{ activities_list := none, error_message := execErrorMessage e },
               [.acquireConn, .execute sql],
          by unfold get_data_from_db_tool; simp [hc, hw, he]⟩
      | ok rows =>
        cases hm : mapRows rows with
        | error m =>
          exact ⟨{ activities_list := none,
                   error_message :=
                     "Error formatting row into activity object: " ++ m },
                 [.acquireConn, .execute sql],
            by unfold get_data_from_db_tool; simp [hc, hw, he, hm]⟩
        | ok acts =>
          exact ⟨{ activities_list := some acts, error_message := "" },
                 [.acquireConn, .execute sql],
            by unfold get_data_from_db_tool; simp [hc, hw, he, hm]⟩

/-- Claim C1: a SQL string containing a denylisted keyword as a
case-insensitive whole word is rejected with the disallowed-statement
error message, and the backend trace is empty: no connection is acquired
and no execute call is issued. -/
theorem claim_C1_denylist_rejects_before_backend
    (dbType : DbType) (sql : String) (params : List String) (w : DbWorld)
    (h : containsDisallowed sql = true) :
    get_data_from_db_tool dbType sql params w =
      .ok ({ activities_list := none, error_message := disallowedMessage }, []) := by
  unfold get_data_from_db_tool
  simp [h]

/-- Witness for claim C1 at the concrete statement "DROP TABLE activities". -/
theorem claim_C1_witness :
    containsDisallowed "DROP TABLE activities" = true ∧
    get_data_from_db_tool .sqlite "DROP TABLE activities" []
        { connection := some 0, execOutcome := .ok [] } =
      .ok ({ activities_list := none, error_message := disallowedMessage }, []) :=
  ⟨by decide,
   claim_C1_denylist_rejects_before_backend .sqlite "DROP TABLE activities" []
     { connection := some 0, execOutcome := .ok [] } (by decide)⟩

/-- Claim C2: for every SQL string and parameter list the executor
returns a structured result (never a propagated exception); a raised
backend or connection error is caught and reported through
`error_message`. -/
theorem claim_C2_no_exception_escapes
    (dbType : DbType) (sql : String) (params : List String) (w : DbWorld) :
    (∃ out tr, get_data_from_db_tool dbType sql params w = .ok (out, tr)) ∧
    (∀ e, containsDisallowed sql = false → w.connection ≠ none →
      w.execOutcome = .error e →
      ∃ tr, get_data_from_db_tool dbType sql params w =
        .ok ({ activities_list := none, error_message := execErrorMessage e }, tr)) ∧
    (containsDisallowed sql = false → w.connection = none →
      get_data_from_db_tool dbType sql params w =
        .ok ({ activities_list := none,
               error_message :=
                 execErrorMessage (.connectionError (connFailureMessage dbType)) },
             [.acquireConn])) := by
  refine ⟨executor_total dbType sql params w, ?_, ?_⟩
  · intro e hd hc he
    obtain ⟨c, hcc⟩ := Option.ne_none_iff_exists'.mp hc
    refine ⟨[.acquireConn, .execute sql], ?_⟩
    unfold get_data_from_db_tool
    simp [hd, hcc, he]
  · intro hd hc
    unfold get_data_from_db_tool
    simp [hd, hc]

/-- Witness for claim C2 at a concrete failing backend. -/
theorem claim_C2_witness :
    ∃ tr, get_data_from_db_tool .postgres "SELECT 1" []
        { connection := some 0, execOutcome := .error (.dbError "syntax error") } =
      .ok ({ activities_list := none,
             error_message := execErrorMessage (.dbError "syntax error") }, tr) :=
  (claim_C2_no_exception_escapes .postgres "SELECT 1" []
      { connection := some 0, execOutcome := .error (.dbError "syntax error") }).2.1
    (.dbError "syntax error") (by decide) (by simp) rfl

/-- Claim C3: every result of the executor has `activities_list`
populated exactly when `error_message` is empty, so an error never
coexists with a record list and an empty list is distinguishable from a
failure. -/
theorem claim_C3_list_iff_no_error
    (dbType : DbType) (sql : String) (params : List String) (w : DbWorld)
    (out : actvities_search_output) (tr : List DbEvent)
    (h : get_data_from_db_tool dbType sql params w = .ok (out, tr)) :
    out.activities_list ≠ none ↔ out.error_message = "" := by
  cases hc : containsDisallowed sql with
  | true =>
    have hv : get_data_from_db_tool dbType sql params w =
        .ok ({ activities_list := none, error_message := disallowedMessage }, []) := by
      unfold get_data_from_db_tool; simp [hc]
    rw [hv] at h
    simp only [Except.ok.injEq, Prod.mk.injEq] at h
    obtain ⟨h1, -⟩ := h
    subst h1
    exact iff_of_false (fun hx => hx rfl) (by decide)
  | false =>
    cases hw : w.connection with
    | none =>
      have hv : get_data_from_db_tool dbType sql params w =
          .ok ({ activities_list := none,
                 error_message :=
                   execErrorMessage (.connectionError (connFailureMessage dbType)) },
               [.acquireConn]) := by
        unfold get_data_from_db_tool; simp [hc, hw]
      rw [hv] at h
      simp only [Except.ok.injEq, Prod.mk.injEq] at h
      obtain ⟨h1, -⟩ := h
      subst h1
      exact iff_of_false (fun hx => hx rfl)
        (execErrorMessage_ne_empty (.connectionError (connFailureMessage dbType)))
    | some c =>
      cases he : w.execOutcome with
      | error e =>
        have hv : get_data_from_db_tool dbType sql params w =
            .ok ({ activities_list := none, error_message := execErrorMessage e },
                 [.acquireConn, .execute sql]) := by
          unfold get_data_from_db_tool; simp [hc, hw, he]
        rw [hv] at h
        simp only [Except.ok.injEq, Prod.mk.injEq] at h
        obtain ⟨h1, -⟩ := h
        subst h1
        exact iff_of_false (fun hx => hx rfl) (execErrorMessage_ne_empty e)
      | ok rows =>
        cases hm : mapRows rows with
        | error m =>
          have hv : get_data_from_db_tool dbType sql params w =
              .ok ({ activities_list := none,
                     error_message :=
                       "Error formatting row into activity object: " ++ m },
                   [.acquireConn, .execute sql]) := by
            unfold get_data_from_db_tool; simp [hc, hw, he, hm]
          rw [hv] at h
          simp only [Except.ok.injEq, Prod.mk.injEq] at h
          obtain ⟨h1, -⟩ := h
          subst h1
          exact iff_of_false (fun hx => hx rfl) (prefixed_ne_empty _ m (by decide))
        | ok acts =>
          have hv : get_data_from_db_tool dbType sql params w =
              .ok ({ activities_list := some acts, error_message := "" },
                   [.acquireConn, .execute sql]) := by
            unfold get_data_from_db_tool; simp [hc, hw, he, hm]
          rw [hv] at h
          simp only [Except.ok.injEq, Prod.mk.injEq] at h
          obtain ⟨h1, -⟩ := h
          subst h1
          exact iff_of_true (by simp) rfl

/-- Witness for claim C3 at a concrete successful execution. -/
theorem claim_C3_witness :
    (({ activities_list := some [], error_message := "" } :
        actvities_search_output).activities_list ≠ none ↔
     ({ activities_list := some [], error_message := "" } :
        actvities_search_output).error_message = "") :=
  claim_C3_list_iff_no_error .sqlite "SELECT 1" []
    { connection := some 0, execOutcome := .ok [] }
    { activities_list := some [], error_message := "" }
    [.acquireConn, .execute "SELECT 1"] (by rfl)

/-- If some row of the list fails to map, the whole row-formatting run
fails. -/
theorem mapRows_error_of_mem {rows : List Row} {r : Row} {m : String}
    (hr : r ∈ rows) (hm : mapRow r = .error m) :
    ∃ m2, mapRows rows = .error m2 := by
  induction rows with
  | nil => cases hr
  | cons head tail ih =>
    cases hr with
    | head => exact ⟨m, by simp [mapRows, hm]⟩
    | tail _ htail =>
      cases hh : mapRow head with
      | error e => exact ⟨e, by simp [mapRows, hh]⟩
      | ok a =>
        obtain ⟨m2, hm2⟩ := ih htail
        exact ⟨m2, by simp [mapRows, hh, hm2]⟩

/-- Claim C4: when a fetched row fails to map into an `activity`, the
executor reports a formatting error for the whole call with no activity
list, so no partial list of the successfully mapped rows is returned. -/
theorem claim_C4_mapping_failure_all_or_nothing
    (dbType : DbType) (sql : String) (params : List String) (w : DbWorld)
    (rows : List Row) (r : Row) (m : String)
    (hd : containsDisallowed sql = false)
    (hc : w.connection ≠ none)
    (he : w.execOutcome = .ok rows)
    (hr : r ∈ rows) (hm : mapRow r = .error m) :
    ∃ m2 tr, get_data_from_db_tool dbType sql params w =
      .ok ({ activities_list := none,
             error_message :=
               "Error formatting row into activity object: " ++ m2 }, tr) := by
  obtain ⟨m2, hm2⟩ := mapRows_error_of_mem hr hm
  obtain ⟨c, hcc⟩ := Option.ne_none_iff_exists'.mp hc
  refine ⟨m2, [.acquireConn, .execute sql], ?_⟩
  unfold get_data_from_db_tool
  simp [hd, hcc, he, hm2]

/-- Witness for claim C4 at a concrete row missing its name column. -/
theorem claim_C4_witness :
    ∃ m2 tr, get_data_from_db_tool .sqlite "SELECT 1" []
      { connection := some 0,
        execOutcome := .ok
          [{ activity_id := some "a1", name := none, description := some "d",
             cost := some 5, duration_min := some 10, duration_max := some 20,
             kid_friendliness_score := some 7 }] } =
      .ok ({ activities_list := none,
             error_message :=
               "Error formatting row into activity object: " ++ m2 }, tr) :=
  claim_C4_mapping_failure_all_or_nothing .sqlite "SELECT 1" []
    { connection := some 0,
      execOutcome := .ok
        [{ activity_id := some "a1", name := none, description := some "d",
           cost := some 5, duration_min := some 10, duration_max := some 20,
           kid_friendliness_score := some 7 }] }
    [{ activity_id := some "a1", name := none, description := some "d",
       cost := some 5, duration_min := some 10, duration_max := some 20,
       kid_friendliness_score := some 7 }]
    { activity_id := some "a1", name := none, description := some "d",
      cost := some 5, duration_min := some 10, duration_max := some 20,
      kid_friendliness_score := some 7 }
    "validation error for activity"
    (by decide) (by simp) rfl (by simp) (by rfl)

/-- Claim C5: when the embedding call fails with a transport or
JSON-decode error, the embedding client returns the absence-of-vector
sentinel instead of raising, and `get_activities_tool` still produces a
result for the request rather than failing with an exception. -/
theorem claim_C5_embedding_failure_degrades
    (dbType : DbType) (maxRows : Nat) (vq kq : String) (w : PipelineWorld)
    (m : String) (hvq : vq ≠ "")
    (h : w.embedOutcome = .transportError m ∨ w.embedOutcome = .decodeError m) :
    get_embedding_tool w.embedOutcome = none ∧
    pipelineEmbedding vq w.embedOutcome = none ∧
    ∃ s, (get_activities_tool dbType maxRows vq kq w).1 = .ok s := by
  have hemb : get_embedding_tool w.embedOutcome = none := by
    rcases h with h | h <;> rw [h] <;> rfl
  refine ⟨hemb, ?_, ?_⟩
  · unfold pipelineEmbedding
    rw [if_neg hvq]
    exact hemb
  · obtain ⟨out, tr, hok⟩ := executor_total dbType
      (build_activities_query dbType (pipelineEmbedding vq w.embedOutcome)
        (get_sql_where_clause_tool w.whereOutcome).1 maxRows) [] w.db
    refine ⟨strOutput out, ?_⟩
    unfold get_activities_tool
    simp only [hok, pyTruthyOutput]
    simp

/-- Witness for claim C5 at a concrete transport failure. -/
theorem claim_C5_witness :
    get_embedding_tool (.transportError "timeout") = none ∧
    pipelineEmbedding "adventure" (.transportError "timeout") = none ∧
    ∃ s, (get_activities_tool .sqlite 20 "adventure" ""
      { embedOutcome := .transportError "timeout", whereOutcome := .missingKey,
        db := { connection := some 0, execOutcome := .ok [] } }).1 = .ok s :=
  claim_C5_embedding_failure_degrades .sqlite 20 "adventure" ""
    { embedOutcome := .transportError "timeout", whereOutcome := .missingKey,
      db := { connection := some 0, execOutcome := .ok [] } }
    "timeout" (by decide) (Or.inl rfl)

/-- On a passing gate, an acquired connection and a successful execute,
the backend trace of the executor is exactly one acquisition followed by one
execute of the given statement, whatever the row mapping does. -/
theorem executor_executes
    (dbType : DbType) (sql : String) (params : List String) (w : DbWorld)
    (c : Nat) (rows : List Row)
    (hd : containsDisallowed sql = false)
    (hconn : w.connection = some c)
    (hexec : w.execOutcome = .ok rows) :
    ∃ out, get_data_from_db_tool dbType sql params w =
      .ok (out, [.acquireConn, .execute sql]) := by
  cases hm : mapRows rows with
  | error m =>
    exact ⟨{ activities_list := none,
             error_message := "Error formatting row into activity object: " ++ m },
      by unfold get_data_from_db_tool; simp [hd, hconn, hexec, hm]⟩
  | ok acts =>
    exact ⟨{ activities_list := some acts, error_message := "" },
      by unfold get_data_from_db_tool; simp [hd, hconn, hexec, hm]⟩

/-- Closed form of the built statement: projection chunk, score chunk,
FROM, optional WHERE chunk, ORDER BY tail. -/
theorem build_eq (dbType : DbType) (emb : Option (List Int))
    (wc : Option String) (maxRows : Nat) :
    build_activities_query dbType emb wc maxRows =
      selectChunk ++ scoreChunkOf dbType emb ++ "FROM activities " ++
        specWhereChunk wc ++ specOrderChunk maxRows := by
  cases dbType <;>
    simp only [build_activities_query, scoreChunkOf, specDistanceChunk,
      specScoreZeroChunk, specWhereChunk, specOrderChunk, String.append_assoc]

/-- Claim C6: when predicate compilation fails (model-call failure or
JSON parse failure, including malformed JSON from the model), the filter
compiler returns the sentinel `none` after exactly one model call (no
retry), the built statement carries no WHERE clause (FROM is followed
directly by the ORDER BY tail), and the query is still executed against
the backend. -/
theorem claim_C6_compile_failure_no_filter
    (dbType : DbType) (maxRows : Nat) (vq kq : String) (w : PipelineWorld)
    (m : String) (c : Nat) (rows : List Row)
    (h : w.whereOutcome = .parseError m ∨ w.whereOutcome = .callError m)
    (hconn : w.db.connection = some c)
    (hexec : w.db.execOutcome = .ok rows)
    (hgate : containsDisallowed (pipelineSql dbType maxRows vq w) = false) :
    (get_sql_where_clause_tool w.whereOutcome).1 = none ∧
    (get_sql_where_clause_tool w.whereOutcome).2 = [.modelCall] ∧
    (∃ pre, pipelineSql dbType maxRows vq w =
      pre ++ "FROM activities " ++ specOrderChunk maxRows) ∧
    (get_activities_tool dbType maxRows vq kq w).2.1 =
      [.acquireConn, .execute (pipelineSql dbType maxRows vq w)] := by
  have hwc : get_sql_where_clause_tool w.whereOutcome = (none, [.modelCall]) := by
    rcases h with h | h <;> rw [h] <;> rfl
  refine ⟨by rw [hwc], by rw [hwc], ?_, ?_⟩
  · refine ⟨selectChunk ++ scoreChunkOf dbType (pipelineEmbedding vq w.embedOutcome), ?_⟩
    unfold pipelineSql
    rw [hwc]
    rw [build_eq dbType (pipelineEmbedding vq w.embedOutcome) none maxRows]
    rw [show specWhereChunk none = "" from rfl, String.append_empty]
  · obtain ⟨out, hok⟩ := executor_executes dbType
      (build_activities_query dbType (pipelineEmbedding vq w.embedOutcome)
        (get_sql_where_clause_tool w.whereOutcome).1 maxRows) [] w.db c rows
      hgate hconn hexec
    unfold get_activities_tool
    simp only [hok, pyTruthyOutput]
    simp only [Bool.true_eq_false, if_false]
    rfl

/-- Witness for claim C6 at a concrete malformed-JSON compilation
failure. -/
theorem claim_C6_witness :
    (get_sql_where_clause_tool (.parseError "Expecting value")).1 = none ∧
    (get_sql_where_clause_tool (.parseError "Expecting value")).2 = [.modelCall] ∧
    (∃ pre, pipelineSql .sqlite 20 ""
        { embedOutcome := .ok [], whereOutcome := .parseError "Expecting value",
          db := { connection := some 0, execOutcome := .ok [] } } =
      pre ++ "FROM activities " ++ specOrderChunk 20) ∧
    (get_activities_tool .sqlite 20 "" "less than 3 hours"
        { embedOutcome := .ok [], whereOutcome := .parseError "Expecting value",
          db := { connection := some 0, execOutcome := .ok [] } }).2.1 =
      [.acquireConn, .execute (pipelineSql .sqlite 20 ""
        { embedOutcome := .ok [], whereOutcome := .parseError "Expecting value",
          db := { connection := some 0, execOutcome := .ok [] } })] :=
  claim_C6_compile_failure_no_filter .sqlite 20 "" "less than 3 hours"
    { embedOutcome := .ok [], whereOutcome := .parseError "Expecting value",
      db := { connection := some 0, execOutcome := .ok [] } }
    "Expecting value" 0 [] (Or.inl rfl) rfl rfl (by decide)

/-- Counterexample to claim C7 as stated: at the request with semantic
query "adventure" whose embedding call returns the empty vector, an
embedding IS present (`some []`), yet the score column of the built statement
is the constant `0` and contains no vector-distance term, because the
builder tests Python truthiness (`if embedding:`) and an empty list is
falsy. -/
theorem claim_C7_counterexample :
    pipelineEmbedding "adventure" (EmbedOutcome.ok []) = some [] ∧
    pipelineSql .sqlite 20 "adventure"
      { embedOutcome := .ok [], whereOutcome := .missingKey,
        db := { connection := some 0, execOutcome := .ok [] } } =
      selectChunk ++ specScoreZeroChunk ++ "FROM activities " ++ specOrderChunk 20 ∧
    strContains (pipelineSql .sqlite 20 "adventure"
      { embedOutcome := .ok [], whereOutcome := .missingKey,
        db := { connection := some 0, execOutcome := .ok [] } })
      "vec_distance_cosine" = false ∧
    strContains (pipelineSql .sqlite 20 "adventure"
      { embedOutcome := .ok [], whereOutcome := .missingKey,
        db := { connection := some 0, execOutcome := .ok [] } }) "<=>" = false :=
  ⟨rfl, by decide, by decide, by decide⟩

/-- Claim C7 (amended): when the embedding value is falsy (absent or the
empty vector), the score column is the constant 0; when a non-empty
embedding is present, the score column is the backend-specific
cosine-distance between the stored embedding column and the literal
vector; in both cases the statement orders ascending by score (the
`specOrderChunk` tail). -/
theorem claim_C7_amended_score_column
    (dbType : DbType) (maxRows : Nat) (vq : String) (w : PipelineWorld) :
    (pyTruthyList (pipelineEmbedding vq w.embedOutcome) = false →
      pipelineSql dbType maxRows vq w =
        selectChunk ++ specScoreZeroChunk ++ "FROM activities " ++
          specWhereChunk (get_sql_where_clause_tool w.whereOutcome).1 ++
          specOrderChunk maxRows) ∧
    (∀ v, pipelineEmbedding vq w.embedOutcome = some v → v ≠ [] →
      pipelineSql dbType maxRows vq w =
        selectChunk ++ specDistanceChunk dbType v ++ "FROM activities " ++
          specWhereChunk (get_sql_where_clause_tool w.whereOutcome).1 ++
          specOrderChunk maxRows) := by
  constructor
  · intro hf
    unfold pipelineSql
    rw [build_eq]
    rw [show scoreChunkOf dbType (pipelineEmbedding vq w.embedOutcome) =
        specScoreZeroChunk from by unfold scoreChunkOf; rw [hf]; simp]
  · intro v hv hne
    unfold pipelineSql
    rw [build_eq, hv]
    cases v with
    | nil => exact absurd rfl hne
    | cons a t =>
      rw [show scoreChunkOf dbType (some (a :: t)) =
          specDistanceChunk dbType (a :: t) from by unfold scoreChunkOf; rfl]

/-- Witness for the amended claim C7, exercising both the falsy-embedding
case and the non-empty-embedding case at concrete requests. -/
theorem claim_C7_witness :
    (pipelineSql .sqlite 20 ""
        { embedOutcome := .ok [1], whereOutcome := .missingKey,
          db := { connection := some 0, execOutcome := .ok [] } } =
      selectChunk ++ specScoreZeroChunk ++ "FROM activities " ++
        specWhereChunk (get_sql_where_clause_tool .missingKey).1 ++
        specOrderChunk 20) ∧
    (pipelineSql .postgres 20 "adventure"
        { embedOutcome := .ok [1, 2], whereOutcome := .missingKey,
          db := { connection := some 0, execOutcome := .ok [] } } =
      selectChunk ++ specDistanceChunk .postgres [1, 2] ++ "FROM activities " ++
        specWhereChunk (get_sql_where_clause_tool .missingKey).1 ++
        specOrderChunk 20) :=
  ⟨(claim_C7_amended_score_column .sqlite 20 ""
      { embedOutcome := .ok [1], whereOutcome := .missingKey,
        db := { connection := some 0, execOutcome := .ok [] } }).1 (by decide),
   (claim_C7_amended_score_column .postgres 20 "adventure"
      { embedOutcome := .ok [1, 2], whereOutcome := .missingKey,
        db := { connection := some 0, execOutcome := .ok [] } }).2 [1, 2] rfl
     (by decide)⟩

/-- Counterexample to claim C9 as stated: at the concrete no-embedding,
no-predicate request the projection of the built statement has nine
comma-separated items — eight fixed columns plus the score column — not
the seven-plus-one the claim asserts. -/
theorem claim_C9_counterexample :
    (projectionItems (build_activities_query .sqlite none none 20)).length = 9 ∧
    (projectionItems (build_activities_query .postgres none none 20)).length = 9 ∧
    ¬ (projectionItems (build_activities_query .sqlite none none 20)).length
        = 7 + 1 := by
  refine ⟨by rfl, by rfl, by decide⟩

/-- Claim C9 (amended): for every combination of optional embedding and
optional predicate and both dialects, the builder produces one SELECT
over the activities table projecting exactly EIGHT fixed columns plus
one computed score column of the shape `<expr> AS score`. -/
theorem claim_C9_amended_eight_plus_score
    (dbType : DbType) (emb : Option (List Int)) (wc : Option String)
    (maxRows : Nat) :
    fixedColumns.length = 8 ∧
    selectChunk = "SELECT " ++ String.intercalate ", " fixedColumns ++ " " ∧
    (∃ scoreExpr, scoreChunkOf dbType emb = ", " ++ scoreExpr ++ " AS score ") ∧
    build_activities_query dbType emb wc maxRows =
      selectChunk ++ scoreChunkOf dbType emb ++ "FROM activities " ++
        specWhereChunk wc ++ specOrderChunk maxRows := by
  refine ⟨rfl, by decide, ?_, build_eq dbType emb wc maxRows⟩
  cases hpt : pyTruthyList emb with
  | false =>
    refine ⟨"0", ?_⟩
    unfold scoreChunkOf
    rw [hpt]
    simp only [Bool.false_eq_true, if_false]
    decide
  | true =>
    cases dbType with
    | sqlite =>
      refine ⟨"vec_distance_cosine(embedding, vec_f32(\x27" ++
        pyListRepr (emb.getD []) ++ "\x27))", ?_⟩
      unfold scoreChunkOf
      rw [hpt]
      simp only [if_true]
      unfold specDistanceChunk
      rw [show (", vec_distance_cosine(embedding, vec_f32(\x27" : String) =
          ", " ++ "vec_distance_cosine(embedding, vec_f32(\x27" from rfl]
      rw [show ("\x27)) AS score " : String) = "\x27))" ++ " AS score " from rfl]
      simp only [String.append_assoc]
    | postgres =>
      refine ⟨"(embedding <=> \x27" ++ pyListRepr (emb.getD []) ++ "\x27)", ?_⟩
      unfold scoreChunkOf
      rw [hpt]
      simp only [if_true]
      unfold specDistanceChunk
      rw [show (", (embedding <=> \x27" : String) =
          ", " ++ "(embedding <=> \x27" from rfl]
      rw [show ("\x27) AS score " : String) = "\x27)" ++ " AS score " from rfl]
      simp only [String.append_assoc]

/-- Claim C8: connection acquisition is idempotent within one process.
For SQLite, a second acquisition after a successful first one returns
the same handle with no events at all, and the script hydration ran
exactly once in the first call.  For Postgres, provided the cached
connection still answers the liveness probe, a second acquisition
returns the same handle with only the probe event, and the
extension/table initialization of the first call is not re-run. -/
theorem claim_C8_acquisition_idempotent :
    (∀ (w1 w2 : SqliteWorld) (c : Nat) (s1 : SqliteState)
        (tr1 : List SqliteEvent),
      setup_sqlite_client w1 initialSqliteState = (some c, s1, tr1) →
      tr1.count .runScript = 1 ∧
      setup_sqlite_client w2 s1 = (some c, s1, [])) ∧
    (∀ (w1 w2 : PgWorld) (c : Nat) (s1 : PgState) (tr1 : List PgEvent),
      setup_postgres_client w1 initialPgState = (some c, s1, tr1) →
      w2.probeOutcome = .ok () →
      tr1.count .createExt = 1 ∧ tr1.count .tableCheck = 1 ∧
      tr1.count .runBootstrap ≤ 1 ∧
      setup_postgres_client w2 s1 = (some c, s1, [.probe])) := by
  constructor
  · intro w1 w2 c s1 tr1 h
    rcases w1 with ⟨fe, rs, so, vo⟩
    unfold setup_sqlite_client initialSqliteState at h
    dsimp only at h
    cases fe with
    | false => simp at h
    | true =>
      cases rs with
      | error e => simp at h
      | ok script =>
        cases so with
        | error e => simp at h
        | ok u =>
          simp only [Bool.true_eq_false, if_false, Prod.mk.injEq,
            Option.some.injEq] at h
          obtain ⟨h1, h2, h3⟩ := h
          subst h1; subst h2; subst h3
          refine ⟨by decide, ?_⟩
          rfl
  · intro w1 w2 c s1 tr1 h hp
    rcases w1 with ⟨po, co, ce, tc, fe, rs, bo⟩
    unfold setup_postgres_client initialPgState pgConnect at h
    dsimp only at h
    cases co with
    | error e => simp at h
    | ok u =>
      cases ce with
      | error e => simp at h
      | ok u2 =>
        cases tc with
        | error e => simp at h
        | ok tableAlready =>
          cases tableAlready with
          | true =>
            simp only [if_true, Prod.mk.injEq, Option.some.injEq] at h
            obtain ⟨h1, h2, h3⟩ := h
            subst h1; subst h2; subst h3
            refine ⟨by decide, by decide, by decide, ?_⟩
            simp [setup_postgres_client, hp]
          | false =>
            cases fe with
            | false =>
              simp only [Bool.false_eq_true, if_false, Prod.mk.injEq,
                Option.some.injEq] at h
              obtain ⟨h1, h2, h3⟩ := h
              subst h1; subst h2; subst h3
              refine ⟨by decide, by decide, by decide, ?_⟩
              simp [setup_postgres_client, hp]
            | true =>
              cases rs with
              | error e => simp at h
              | ok script =>
                cases bo with
                | error e => simp at h
                | ok u3 =>
                  simp only [if_true, Bool.false_eq_true, if_false,
                    Prod.mk.injEq, Option.some.injEq] at h
                  obtain ⟨h1, h2, h3⟩ := h
                  subst h1; subst h2; subst h3
                  refine ⟨by decide, by decide, by decide, ?_⟩
                  simp [setup_postgres_client, hp]

/-- Witness for claim C8 at concrete worlds: a successful SQLite bootstrap
and a successful Postgres bootstrap, each followed by a second
acquisition. -/
theorem claim_C8_witness :
    ([SqliteEvent.connectMemory, .runScript, .loadVecExt].count
        SqliteEvent.runScript = 1 ∧
     setup_sqlite_client
        { fileExists := false, readScript := .error "gone",
          scriptOutcome := .ok (), vecLoadOutcome := .ok () }
        { conn := some 0, nextConn := 1 } =
      (some 0, { conn := some 0, nextConn := 1 }, [])) ∧
    ([PgEvent.connectAttempt, .createExt, .tableCheck, .runBootstrap].count
        PgEvent.createExt = 1 ∧
     [PgEvent.connectAttempt, .createExt, .tableCheck, .runBootstrap].count
        PgEvent.tableCheck = 1 ∧
     [PgEvent.connectAttempt, .createExt, .tableCheck, .runBootstrap].count
        PgEvent.runBootstrap ≤ 1 ∧
     setup_postgres_client
        { probeOutcome := .ok (), connectOutcome := .error "unused",
          createExtOutcome := .error "unused", tableCheckOutcome := .error "unused",
          fileExists := false, readScript := .error "unused",
          bootstrapOutcome := .error "unused" }
        { conn := some 0, nextConn := 1 } =
      (some 0, { conn := some 0, nextConn := 1 }, [.probe])) :=
  ⟨claim_C8_acquisition_idempotent.1
     { fileExists := true, readScript := .ok "CREATE TABLE activities;",
       scriptOutcome := .ok (), vecLoadOutcome := .ok () }
     { fileExists := false, readScript := .error "gone",
       scriptOutcome := .ok (), vecLoadOutcome := .ok () }
     0 { conn := some 0, nextConn := 1 }
     [.connectMemory, .runScript, .loadVecExt] rfl,
   claim_C8_acquisition_idempotent.2
     { probeOutcome := .error "unused", connectOutcome := .ok (),
       createExtOutcome := .ok (), tableCheckOutcome := .ok false,
       fileExists := true, readScript := .ok "CREATE TABLE activities;",
       bootstrapOutcome := .ok () }
     { probeOutcome := .ok (), connectOutcome := .error "unused",
       createExtOutcome := .error "unused", tableCheckOutcome := .error "unused",
       fileExists := false, readScript := .error "unused",
       bootstrapOutcome := .error "unused" }
     0 { conn := some 0, nextConn := 1 }
     [.connectAttempt, .createExt, .tableCheck, .runBootstrap] rfl rfl⟩

/-- Claim C10: for every request, `get_activities_tool` returns the
string rendering of the output object of the executor; since the executor
always returns an `actvities_search_output` instance and such instances
are always truthy, the `"Failed to get results."` fallback branch is
never taken. -/
theorem claim_C10_fallback_unreachable
    (dbType : DbType) (maxRows : Nat) (vq kq : String) (w : PipelineWorld) :
    ∃ out tr,
      get_data_from_db_tool dbType (pipelineSql dbType maxRows vq w) [] w.db =
        .ok (out, tr) ∧
      pyTruthyOutput out = true ∧
      (get_activities_tool dbType maxRows vq kq w).1 = .ok (strOutput out) := by
  obtain ⟨out, tr, hok⟩ :=
    executor_total dbType (pipelineSql dbType maxRows vq w) [] w.db
  have hok2 : get_data_from_db_tool dbType
      (build_activities_query dbType (pipelineEmbedding vq w.embedOutcome)
        (get_sql_where_clause_tool w.whereOutcome).1 maxRows) [] w.db =
      .ok (out, tr) := hok
  refine ⟨out, tr, hok, rfl, ?_⟩
  unfold get_activities_tool
  simp only [hok2, pyTruthyOutput]
  simp
